import Mathlib

/-!
Verification of the data-quality filtering engine of `go_utils`
(`go_utils/filtering.py`): `filter_invalid_coords`, `filter_duplicates`,
`filter_poor_geolocational_data`.

The pandas DataFrame is embedded as a header (list of column names)
together with a list of rows, each row a list of cell values.  A cell
value is a rational number, a string, or `null` (pandas `NaN` / missing).
The embedding mirrors the pandas semantics the source relies on:

* comparing a missing value against a number yields `false`;
  comparing a string column against a number raises `TypeError`
  (modelled as `Except.error ()`);
* `df.groupby(by=columns)` silently drops rows having a missing value in
  any grouping column (pandas `dropna=True` default);
* `df.isin(other)` matches cells by position and value, and a missing
  cell never matches (`NaN == NaN` is false), so masking a suspect row
  turns exactly its non-missing cells into `NaN`;
* `dropna(how="all")` drops the rows all of whose cells are missing,
  while the bare `dropna()` on line 67 of the source uses the pandas
  default `how="any"` and drops every row containing any missing cell;
* Python `int(x)` truncates toward zero, raises on `NaN`, and parses
  integer literals from strings; `x == int(x)` uses Python `==`, which
  is `false` across types and `false` on `NaN`;
* `np.vectorize` without `otypes` raises `ValueError` on size-0 input,
  so the geolocation filter errors on an empty frame before any row is
  examined.
-/

inductive Val where
  | num (q : ℚ)
  | str (s : String)
  | null
deriving DecidableEq, Repr

/-- A pandas DataFrame: a header of column names and a list of rows. -/
structure DFrame where
  cols : List String
  rows : List (List Val)
deriving DecidableEq, Repr

deriving instance DecidableEq for Except

/-- `df[c]` for one row: the cell of the row in the named column. -/
def cell (cols : List String) (r : List Val) (c : String) : Val :=
  r.getD (cols.indexOf c) Val.null

/-- Is the value a missing value (pandas `NaN`)? -/
def isNull : Val → Bool
  | Val.null => true
  | _ => false

/-- Is the value an actual number? -/
def isNum : Val → Bool
  | Val.num _ => true
  | _ => false

/-- Is the value a string? -/
def isStr : Val → Bool
  | Val.str _ => true
  | _ => false

/-- The rational carried by a numeric value (`0` otherwise). -/
def ratOf : Val → ℚ
  | Val.num q => q
  | _ => 0

/-- pandas `series <= c`: numbers compare, `NaN` compares `false`,
a string cell raises `TypeError`. -/
def valLe (v : Val) (c : ℚ) : Except Unit Bool :=
  match v with
  | Val.num q => Except.ok (decide (q ≤ c))
  | Val.null => Except.ok false
  | Val.str _ => Except.error ()

/-- pandas `series >= c`. -/
def valGe (v : Val) (c : ℚ) : Except Unit Bool :=
  match v with
  | Val.num q => Except.ok (decide (c ≤ q))
  | Val.null => Except.ok false
  | Val.str _ => Except.error ()

/-- pandas `series < c`. -/
def valLt (v : Val) (c : ℚ) : Except Unit Bool :=
  match v with
  | Val.num q => Except.ok (decide (q < c))
  | Val.null => Except.ok false
  | Val.str _ => Except.error ()

/-- pandas `series > c`. -/
def valGt (v : Val) (c : ℚ) : Except Unit Bool :=
  match v with
  | Val.num q => Except.ok (decide (c < q))
  | Val.null => Except.ok false
  | Val.str _ => Except.error ()

/-- Error-propagating map over a list (cell-wise evaluation of a
vectorised predicate: the call fails when it fails on any element). -/
def mapE (f : α → Except Unit β) : List α → Except Unit (List β)
  | [] => Except.ok []
  | a :: l =>
    match f a with
    | Except.error e => Except.error e
    | Except.ok b =>
      match mapE f l with
      | Except.error e => Except.error e
      | Except.ok bs => Except.ok (b :: bs)

/-- The boolean mask of `filter_invalid_coords` for one row: the
conjunction of the four bound comparisons (source lines 48-61). -/
def coordMask (inclusive : Bool) (lat lon : Val) : Except Unit Bool :=
  if inclusive then
    match valGe lat (-90), valLe lat 90, valLe lon 180, valGe lon (-180) with
    | Except.ok a, Except.ok b, Except.ok c, Except.ok d =>
        Except.ok (a && b && c && d)
    | _, _, _, _ => Except.error ()
  else
    match valGt lat (-90), valLt lat 90, valLt lon 180, valGt lon (-180) with
    | Except.ok a, Except.ok b, Except.ok c, Except.ok d =>
        Except.ok (a && b && c && d)
    | _, _, _, _ => Except.error ()

/-- The row mask of `filter_invalid_coords` as a function of the row. -/
def cmRow (cols : List String) (latC lonC : String) (inclusive : Bool)
    (r : List Val) : Except Unit Bool :=
  coordMask inclusive (cell cols r latC) (cell cols r lonC)

/-- `go_utils.filtering.filter_invalid_coords`.  The result models the
returned DataFrame (`inplace=False`) or the final state of the caller's
DataFrame (`inplace=True`: `df.mask(~mask, inplace=True)` followed by
`df.dropna(inplace=True)`, whose pandas default is `how="any"`). -/
def filter_invalid_coords (df : DFrame) (latC lonC : String)
    (inclusive inplace : Bool) : Except Unit DFrame :=
  match mapE (cmRow df.cols latC lonC inclusive) df.rows with
  | Except.error e => Except.error e
  | Except.ok mask =>
    match inplace with
    | false =>
      Except.ok ⟨df.cols, ((df.rows.zip mask).filter (fun p => p.2)).map Prod.fst⟩
    | true =>
      Except.ok ⟨df.cols,
        ((df.rows.zip mask).map
          (fun p => if p.2 then p.1 else p.1.map (fun _ => Val.null))).filter
          (fun r => r.all (fun v => !isNull v))⟩

/-- Projection of a row onto the grouping columns (the groupby key). -/
def rowKey (cols : List String) (gcols : List String) (r : List Val) : List Val :=
  gcols.map (fun c => cell cols r c)

/-- pandas `groupby` forms a group for a key only when no component of
the key is missing (`dropna=True` default). -/
def keyOk (k : List Val) : Bool := k.all (fun v => !isNull v)

/-- The size of the group a key belongs to: the number of rows sharing
that grouping-column projection. -/
def groupCount (cols : List String) (rows : List (List Val))
    (gcols : List String) (k : List Val) : Nat :=
  (rows.filter (fun r => decide (rowKey cols gcols r = k))).length

/-- A row belongs to `suspect_df` (source line 95): its groupby key has
no missing component and its group has at least `group_size` rows. -/
def suspect (df : DFrame) (gcols : List String) (gs : Int) (r : List Val) : Bool :=
  keyOk (rowKey df.cols gcols r) &&
    decide (gs ≤ (groupCount df.cols df.rows gcols (rowKey df.cols gcols r) : Int))

/-- `go_utils.filtering.filter_duplicates`.  `suspect_mask = df.isin(suspect_df)`
is true exactly at the non-missing cells of suspect rows; `df[~suspect_mask]`
(copy mode) and `df.mask(suspect_mask)` (in-place mode) therefore blank the
non-missing cells of suspect rows, and `dropna(how="all")` then drops the
all-missing rows. -/
def filter_duplicates (df : DFrame) (gcols : List String) (gs : Int)
    (inplace : Bool) : DFrame :=
  match inplace with
  | false =>
    ⟨df.cols,
      (df.rows.map (fun r => r.map
        (fun v => if !(suspect df gcols gs r && !isNull v) then v else Val.null))).filter
        (fun r => r.any (fun v => !isNull v))⟩
  | true =>
    ⟨df.cols,
      (df.rows.map (fun r => r.map
        (fun v => if suspect df gcols gs r && !isNull v then Val.null else v))).filter
        (fun r => r.any (fun v => !isNull v))⟩

/-- Python `int(x)` truncation toward zero on a rational. -/
def ratTrunc (q : ℚ) : Int := q.num.tdiv (q.den : Int)

/-- Python `int(x)` on a cell: truncates a number toward zero, raises
`ValueError` on `NaN`, parses an integer literal from a string and
raises on any other string. -/
def pyInt : Val → Except Unit Int
  | Val.num q => Except.ok (ratTrunc q)
  | Val.null => Except.error ()
  | Val.str s =>
    match s.toInt? with
    | some n => Except.ok n
    | none => Except.error ()

/-- Python `==` between two cells: numbers and strings compare within
their own type, every comparison involving `NaN` or crossing types is
`false`. -/
def pyEq : Val → Val → Bool
  | Val.num a, Val.num b => decide (a = b)
  | Val.str a, Val.str b => decide (a = b)
  | _, _ => false

/-- The inner `geolocational_filter` of
`filter_poor_geolocational_data` (source lines 133-138), with Python's
left-to-right short-circuit evaluation: `int(gps_lat)` is only reached
when the coordinate-pair match fails, and `int(gps_lon)` only when the
latitude is not a whole number. -/
def geolocational_filter (gps_lat gps_lon recorded_lat recorded_lon : Val) :
    Except Unit Bool :=
  if pyEq recorded_lat gps_lat && pyEq recorded_lon gps_lon then
    Except.ok true
  else
    match pyInt gps_lat with
    | Except.error e => Except.error e
    | Except.ok n =>
      if pyEq gps_lat (Val.num (n : ℚ)) then
        Except.ok true
      else
        match pyInt gps_lon with
        | Except.error e => Except.error e
        | Except.ok m => Except.ok (pyEq gps_lon (Val.num (m : ℚ)))

/-- The vectorised bad-row predicate of `filter_poor_geolocational_data`
as a function of the row. -/
def gfRow (cols : List String) (latC lonC glatC glonC : String)
    (r : List Val) : Except Unit Bool :=
  geolocational_filter (cell cols r latC) (cell cols r lonC)
    (cell cols r glatC) (cell cols r glonC)

/-- `go_utils.filtering.filter_poor_geolocational_data`.  The call to
`np.vectorize` carries no `otypes`, so numpy raises `ValueError` on a
size-0 input: an empty frame errors before any row is examined.
Otherwise copy mode is `df[~bad_data]`; in-place mode is
`df.mask(~df.isin(filtered_df))` followed by `dropna(how="all")`, which
blanks every cell of the bad rows and then drops the all-missing rows. -/
def filter_poor_geolocational_data (df : DFrame)
    (latC lonC glatC glonC : String) (inplace : Bool) : Except Unit DFrame :=
  match df.rows with
  | [] => Except.error ()
  | _ :: _ =>
    match mapE (gfRow df.cols latC lonC glatC glonC) df.rows with
    | Except.error e => Except.error e
    | Except.ok bad =>
      match inplace with
      | false =>
        Except.ok ⟨df.cols, ((df.rows.zip bad).filter (fun p => !p.2)).map Prod.fst⟩
      | true =>
        Except.ok ⟨df.cols,
          ((df.rows.zip bad).map
            (fun p => if !p.2 then p.1 else p.1.map (fun _ => Val.null))).filter
            (fun r => r.any (fun v => !isNull v))⟩

/-- Truth of an optional boolean mask entry. -/
def okTrue : Except Unit Bool → Bool
  | Except.ok true => true
  | _ => false

/-! ### Pipeline characterizations -/

/-- The row-survival predicate realised by `filter_invalid_coords`:
in copy mode a row survives when its mask is true; in in-place mode a
surviving row must in addition contain no missing cell at all (the bare
`dropna()` of source line 67 defaults to `how="any"`). -/
def ficPred (cols : List String) (latC lonC : String) (inclusive : Bool) :
    Bool → List Val → Bool
  | false, r => okTrue (cmRow cols latC lonC inclusive r)
  | true, r =>
    if okTrue (cmRow cols latC lonC inclusive r) then r.all (fun v => !isNull v)
    else r.isEmpty

/-- The row-survival predicate realised by `filter_poor_geolocational_data`. -/
def fpPred (cols : List String) (latC lonC glatC glonC : String) :
    Bool → List Val → Bool
  | false, r => !okTrue (gfRow cols latC lonC glatC glonC r)
  | true, r =>
    !okTrue (gfRow cols latC lonC glatC glonC r) && r.any (fun v => !isNull v)

/-- The row-survival predicate realised by `filter_duplicates`: not a
member of an oversized group, and not a fully missing row. -/
def fdPred (df : DFrame) (gcols : List String) (gs : Int) (r : List Val) : Bool :=
  !suspect df gcols gs r && r.any (fun v => !isNull v)

/-- The duplicate-filter scenario of the repository test-suite. -/
def mhmDF : DFrame :=
  ⟨["Latitude", "Longitude", "attribute1", "attribute2"],
   [[Val.num 5, Val.num 6, Val.str "foo", Val.str "baz"],
    [Val.num 5, Val.num 6, Val.str "foo", Val.str "baz"],
    [Val.num 7, Val.num 10, Val.str "foo", Val.str "baz"],
    [Val.num 8, Val.num 2, Val.str "bar", Val.str "baz"]]⟩

/-- The geolocation-quality scenario of the specification: an exact
grid match, an integer latitude, and a clean row. -/
def geoDF : DFrame :=
  ⟨["Latitude", "Longitude", "MGRSLatitude", "MGRSLongitude"],
   [[Val.num (Rat.mk' 73 2 (by decide) (by decide)),
     Val.num (Rat.mk' 476 5 (by decide) (by decide)),
     Val.num (Rat.mk' 73 2 (by decide) (by decide)),
     Val.num (Rat.mk' 476 5 (by decide) (by decide))],
    [Val.num 30, Val.num (Rat.mk' 27 2 (by decide) (by decide)),
     Val.num (Rat.mk' 151 5 (by decide) (by decide)), Val.num 14],
    [Val.num (Rat.mk' 96 5 (by decide) (by decide)),
     Val.num (Rat.mk' 154 5 (by decide) (by decide)),
     Val.num (Rat.mk' 193 10 (by decide) (by decide)),
     Val.num (Rat.mk' 151 5 (by decide) (by decide))]]⟩

/-- Coordinate rows: one valid, one `-9999` latitude, one latitude of
exactly `90`. -/
def coordDF : DFrame :=
  ⟨["lat", "lon"],
   [[Val.num 50, Val.num 20], [Val.num (-9999), Val.num 0], [Val.num 90, Val.num 1]]⟩

/-- A row with valid coordinates but a missing value in another column. -/
def maskedDF : DFrame :=
  ⟨["lat", "lon", "x"], [[Val.num 10, Val.num 20, Val.null]]⟩

/-- Two rows agreeing (with a missing value) on the grouping column. -/
def nullKeyDF : DFrame :=
  ⟨["a", "b"], [[Val.null, Val.num 1], [Val.null, Val.num 2]]⟩

/-- A string latitude value. -/
def strLatDF : DFrame :=
  ⟨["lat", "lon"], [[Val.str "oops", Val.num 5]]⟩

/-- A missing latitude next to a valid row. -/
def nullLatDF : DFrame :=
  ⟨["lat", "lon"], [[Val.null, Val.num 5], [Val.num 10, Val.num 20]]⟩

/-- GPS latitude an exact integer, GPS longitude missing. -/
def intLatNullLonDF : DFrame :=
  ⟨["lat", "lon", "mlat", "mlon"], [[Val.num 30, Val.null, Val.num 1, Val.num 2]]⟩

/-- GPS latitude missing. -/
def nullGpsLatDF : DFrame :=
  ⟨["lat", "lon", "mlat", "mlon"], [[Val.null, Val.num 5, Val.num 1, Val.num 2]]⟩

theorem okTrue_iff (e : Except Unit Bool) : okTrue e = true ↔ e = Except.ok true := by
  cases e with
  | error u => simp [okTrue]
  | ok b => cases b <;> simp [okTrue]

theorem mapE_ok_of_forall (f : α → Except Unit β) (l : List α)
    (h : ∀ a ∈ l, ∃ b, f a = Except.ok b) : ∃ m, mapE f l = Except.ok m := by
  induction l with
  | nil => exact ⟨[], rfl⟩
  | cons a t ih =>
    obtain ⟨b, hb⟩ := h a (by simp)
    obtain ⟨m, hm⟩ := ih (fun x hx => h x (by simp [hx]))
    exact ⟨b :: m, by simp [mapE, hb, hm]⟩

theorem mapE_error_iff (f : α → Except Unit β) (l : List α) :
    mapE f l = Except.error () ↔ ∃ a ∈ l, f a = Except.error () := by
  induction l with
  | nil => simp [mapE]
  | cons a t ih =>
    simp only [mapE]
    cases hfa : f a with
    | error u =>
      cases u
      simp only [List.mem_cons]
      exact ⟨fun _ => ⟨a, Or.inl rfl, hfa⟩, fun _ => trivial⟩
    | ok b =>
      cases hmt : mapE f t with
      | error u =>
        cases u
        simp only [List.mem_cons]
        refine ⟨fun _ => ?_, fun _ => trivial⟩
        obtain ⟨x, hx, hex⟩ := ih.mp hmt
        exact ⟨x, Or.inr hx, hex⟩
      | ok bs =>
        constructor
        · intro hc
          exact absurd hc (by simp)
        · rintro ⟨x, hx, hex⟩
          rcases List.mem_cons.mp hx with h1 | h2
          · rw [h1] at hex
            rw [hex] at hfa
            exact absurd hfa (by simp)
          · rw [hmt] at ih
            have h0 := ih.mpr ⟨x, h2, hex⟩
            exact absurd h0 (by simp)

theorem zip_mapE (f : α → Except Unit Bool) (l : List α) (m : List Bool)
    (h : mapE f l = Except.ok m) :
    l.zip m = l.map (fun a => (a, okTrue (f a))) := by
  induction l generalizing m with
  | nil => simp
  | cons a t ih =>
    simp only [mapE] at h
    cases hfa : f a with
    | error u => rw [hfa] at h; exact absurd h (by simp)
    | ok b =>
      rw [hfa] at h
      cases hmt : mapE f t with
      | error u => rw [hmt] at h; exact absurd h (by simp)
      | ok bs =>
        rw [hmt] at h
        cases h
        have : okTrue (f a) = b := by cases b <;> simp [okTrue, hfa]
        simp [ih bs hmt, this]

theorem map_filter_of (f : α → α) (p g : α → Bool) (l : List α)
    (hpg : ∀ a, p (f a) = g a) (hg : ∀ a, g a = true → f a = a) :
    (l.map f).filter p = l.filter g := by
  induction l with
  | nil => rfl
  | cons a t ih =>
    simp only [List.map_cons, List.filter_cons]
    rw [hpg a]
    cases hga : g a with
    | true => rw [hg a hga, ih]
    | false => exact ih

theorem all_not_null_map_null (r : List Val) :
    ((r.map (fun _ => Val.null)).all fun v => !isNull v) = r.isEmpty := by
  cases r <;> simp [isNull]

theorem any_not_null_map_null (r : List Val) :
    ((r.map (fun _ => Val.null)).any fun v => !isNull v) = false := by
  induction r with
  | nil => rfl
  | cons a t ih => simp [isNull, ih]

theorem any_false_of (p : α → Bool) (l : List α) (h : ∀ a ∈ l, p a = false) :
    l.any p = false := by
  induction l with
  | nil => rfl
  | cons a t ih => simp [h a (by simp), ih (fun x hx => h x (by simp [hx]))]

theorem map_id_of (f : α → α) (l : List α) (h : ∀ a ∈ l, f a = a) : l.map f = l := by
  induction l with
  | nil => rfl
  | cons a t ih =>
    simp only [List.map_cons]
    rw [h a (by simp), ih (fun x hx => h x (by simp [hx]))]

theorem pair_filter_pos (h : α → Bool) (l : List α) :
    ((l.map (fun a => (a, h a))).filter (fun p => p.2)).map Prod.fst
      = l.filter (fun a => h a) := by
  induction l with
  | nil => rfl
  | cons a t ih =>
    simp only [List.map_cons, List.filter_cons]
    cases hb : h a <;> simp [hb, ih]

theorem pair_filter_neg (h : α → Bool) (l : List α) :
    ((l.map (fun a => (a, h a))).filter (fun p => !p.2)).map Prod.fst
      = l.filter (fun a => !h a) := by
  induction l with
  | nil => rfl
  | cons a t ih =>
    simp only [List.map_cons, List.filter_cons]
    cases hb : h a <;> simp [hb, ih]

theorem filter_invalid_coords_ok (df : DFrame) (latC lonC : String)
    (inclusive inplace : Bool) (m : List Bool)
    (h : mapE (cmRow df.cols latC lonC inclusive) df.rows = Except.ok m) :
    filter_invalid_coords df latC lonC inclusive inplace
      = Except.ok ⟨df.cols, df.rows.filter (ficPred df.cols latC lonC inclusive inplace)⟩ := by
  have hz := zip_mapE _ _ _ h
  cases inplace with
  | false =>
    unfold filter_invalid_coords
    rw [h]
    dsimp only
    rw [hz, pair_filter_pos (fun a => okTrue (cmRow df.cols latC lonC inclusive a)) df.rows]
    rfl
  | true =>
    unfold filter_invalid_coords
    rw [h]
    dsimp only
    rw [hz, List.map_map]
    refine congrArg Except.ok (congrArg (DFrame.mk df.cols) ?_)
    refine map_filter_of _ _ _ df.rows (fun r => ?_) (fun r hr => ?_)
    · by_cases hb : okTrue (cmRow df.cols latC lonC inclusive r) = true
      · simp [Function.comp, hb, ficPred]
      · simp only [Bool.not_eq_true] at hb
        simp only [Function.comp, ficPred, hb, Bool.false_eq_true, if_false]
        cases r <;> simp [isNull]
    · by_cases hb : okTrue (cmRow df.cols latC lonC inclusive r) = true
      · simp [Function.comp, hb]
      · simp only [Bool.not_eq_true] at hb
        simp only [ficPred, hb, Bool.false_eq_true, if_false, List.isEmpty_iff] at hr
        simp [Function.comp, hb, hr]

theorem filter_invalid_coords_inv (df : DFrame) (latC lonC : String)
    (inclusive inplace : Bool) (out : DFrame)
    (h : filter_invalid_coords df latC lonC inclusive inplace = Except.ok out) :
    ∃ m, mapE (cmRow df.cols latC lonC inclusive) df.rows = Except.ok m := by
  unfold filter_invalid_coords at h
  cases hm : mapE (cmRow df.cols latC lonC inclusive) df.rows with
  | error u => rw [hm] at h; exact absurd h (by simp)
  | ok m => exact ⟨m, rfl⟩

theorem filter_invalid_coords_spec (df : DFrame) (latC lonC : String)
    (inclusive inplace : Bool) (out : DFrame)
    (h : filter_invalid_coords df latC lonC inclusive inplace = Except.ok out) :
    out = ⟨df.cols, df.rows.filter (ficPred df.cols latC lonC inclusive inplace)⟩ := by
  obtain ⟨m, hm⟩ := filter_invalid_coords_inv df latC lonC inclusive inplace out h
  have h2 := filter_invalid_coords_ok df latC lonC inclusive inplace m hm
  rw [h] at h2
  exact Except.ok.inj h2

theorem filter_poor_ok (df : DFrame) (latC lonC glatC glonC : String)
    (inplace : Bool) (m : List Bool) (hne : df.rows ≠ [])
    (h : mapE (gfRow df.cols latC lonC glatC glonC) df.rows = Except.ok m) :
    filter_poor_geolocational_data df latC lonC glatC glonC inplace
      = Except.ok ⟨df.cols, df.rows.filter (fpPred df.cols latC lonC glatC glonC inplace)⟩ := by
  have hz := zip_mapE _ _ _ h
  cases hrows : df.rows with
  | nil => exact absurd hrows hne
  | cons r0 rt =>
    rw [hrows] at h hz
    cases inplace with
    | false =>
      unfold filter_poor_geolocational_data
      rw [hrows, h]
      dsimp only
      rw [hz, pair_filter_neg (fun a => okTrue (gfRow df.cols latC lonC glatC glonC a)) (r0 :: rt)]
      rfl
    | true =>
      unfold filter_poor_geolocational_data
      rw [hrows, h]
      dsimp only
      rw [hz, List.map_map]
      refine congrArg Except.ok (congrArg (DFrame.mk df.cols) ?_)
      refine map_filter_of _ _ _ (r0 :: rt) (fun r => ?_) (fun r hr => ?_)
      · by_cases hb : okTrue (gfRow df.cols latC lonC glatC glonC r) = true
        · simp only [Function.comp, fpPred, hb, Bool.not_true, Bool.false_and]
          induction r with
          | nil => rfl
          | cons a t ih => simp [isNull, ih]
        · simp only [Bool.not_eq_true] at hb
          simp [Function.comp, hb, fpPred]
      · simp only [fpPred, Bool.and_eq_true, Bool.not_eq_true'] at hr
        simp [Function.comp, hr.1]

theorem filter_poor_inv (df : DFrame) (latC lonC glatC glonC : String)
    (inplace : Bool) (out : DFrame)
    (h : filter_poor_geolocational_data df latC lonC glatC glonC inplace = Except.ok out) :
    ∃ m, mapE (gfRow df.cols latC lonC glatC glonC) df.rows = Except.ok m := by
  unfold filter_poor_geolocational_data at h
  cases hrows : df.rows with
  | nil =>
    rw [hrows] at h
    exact absurd h (by simp)
  | cons r0 rt =>
    rw [hrows] at h
    cases hm : mapE (gfRow df.cols latC lonC glatC glonC) (r0 :: rt) with
    | error u =>
      rw [hm] at h
      exact absurd h (by simp)
    | ok m => exact ⟨m, rfl⟩

theorem filter_poor_spec (df : DFrame) (latC lonC glatC glonC : String)
    (inplace : Bool) (out : DFrame)
    (h : filter_poor_geolocational_data df latC lonC glatC glonC inplace = Except.ok out) :
    out = ⟨df.cols, df.rows.filter (fpPred df.cols latC lonC glatC glonC inplace)⟩ := by
  have hne : df.rows ≠ [] := by
    intro hnil
    unfold filter_poor_geolocational_data at h
    rw [hnil] at h
    exact absurd h (by simp)
  obtain ⟨m, hm⟩ := filter_poor_inv df latC lonC glatC glonC inplace out h
  have h2 := filter_poor_ok df latC lonC glatC glonC inplace m hne hm
  rw [h] at h2
  exact Except.ok.inj h2

theorem filter_poor_error_iff (df : DFrame) (latC lonC glatC glonC : String)
    (inplace : Bool) :
    filter_poor_geolocational_data df latC lonC glatC glonC inplace = Except.error ()
      ↔ (df.rows = []
          ∨ mapE (gfRow df.cols latC lonC glatC glonC) df.rows = Except.error ()) := by
  unfold filter_poor_geolocational_data
  cases hrows : df.rows with
  | nil => simp [mapE]
  | cons r0 rt =>
    cases hm : mapE (gfRow df.cols latC lonC glatC glonC) (r0 :: rt) with
    | error u =>
      cases u
      simp
    | ok m => cases inplace <;> simp

theorem filter_duplicates_spec (df : DFrame) (gcols : List String) (gs : Int)
    (inplace : Bool) :
    filter_duplicates df gcols gs inplace
      = ⟨df.cols, df.rows.filter (fdPred df gcols gs)⟩ := by
  cases inplace with
  | false =>
    unfold filter_duplicates
    dsimp only
    refine congrArg (DFrame.mk df.cols) ?_
    refine map_filter_of _ _ _ df.rows (fun r => ?_) (fun r hr => ?_)
    · by_cases hs : suspect df gcols gs r = true
      · simp only [fdPred, hs, Bool.not_true, Bool.false_and]
        rw [List.any_map]
        refine any_false_of _ _ (fun v hv => ?_)
        cases v <;> simp [Function.comp, isNull, hs]
      · simp only [Bool.not_eq_true] at hs
        rw [map_id_of _ _ (fun v hv => by simp [hs])]
        simp [fdPred, hs]
    · simp only [fdPred, Bool.and_eq_true, Bool.not_eq_true'] at hr
      exact map_id_of _ _ (fun v hv => by simp [hr.1])
  | true =>
    unfold filter_duplicates
    dsimp only
    refine congrArg (DFrame.mk df.cols) ?_
    refine map_filter_of _ _ _ df.rows (fun r => ?_) (fun r hr => ?_)
    · by_cases hs : suspect df gcols gs r = true
      · simp only [fdPred, hs, Bool.not_true, Bool.false_and]
        rw [List.any_map]
        refine any_false_of _ _ (fun v hv => ?_)
        cases v <;> simp [Function.comp, isNull, hs]
      · simp only [Bool.not_eq_true] at hs
        rw [map_id_of _ _ (fun v hv => by simp [hs])]
        simp [fdPred, hs]
    · simp only [fdPred, Bool.and_eq_true, Bool.not_eq_true'] at hr
      exact map_id_of _ _ (fun v hv => by simp [hr.1])

/-! ### Per-row evaluation lemmas -/

theorem okTrue_ok (b : Bool) : okTrue (Except.ok b) = b := by
  cases b <;> rfl

theorem isNum_iff (v : Val) : isNum v = true ↔ ∃ q, v = Val.num q := by
  cases v <;> simp [isNum]

theorem getD_mem_of_ne (l : List α) (n : Nat) (d : α) (h : l.getD n d ≠ d) :
    l.getD n d ∈ l := by
  induction l generalizing n with
  | nil => simp [List.getD] at h
  | cons a t ih =>
    cases n with
    | zero => simp [List.getD_cons_zero]
    | succ k =>
      rw [List.getD_cons_succ] at h ⊢
      exact List.mem_cons_of_mem a (ih k h)

theorem coordMask_num_excl (a b : ℚ) :
    coordMask false (Val.num a) (Val.num b)
      = Except.ok (decide (-90 < a) && decide (a < 90) && decide (b < 180)
          && decide (-180 < b)) := rfl

theorem coordMask_num_incl (a b : ℚ) :
    coordMask true (Val.num a) (Val.num b)
      = Except.ok (decide (-90 ≤ a) && decide (a ≤ 90) && decide (b ≤ 180)
          && decide (-180 ≤ b)) := rfl

theorem coordMask_ok_of_nonstr (inclusive : Bool) (lat lon : Val)
    (h1 : isStr lat = false) (h2 : isStr lon = false) :
    ∃ b, coordMask inclusive lat lon = Except.ok b := by
  cases lat with
  | str s => simp [isStr] at h1
  | num a =>
    cases lon with
    | str s => simp [isStr] at h2
    | num b => cases inclusive <;> exact ⟨_, rfl⟩
    | null => cases inclusive <;> exact ⟨_, rfl⟩
  | null =>
    cases lon with
    | str s => simp [isStr] at h2
    | num b => cases inclusive <;> exact ⟨_, rfl⟩
    | null => cases inclusive <;> exact ⟨_, rfl⟩

theorem coordMask_null_false (inclusive : Bool) (lat lon : Val)
    (h1 : isStr lat = false) (h2 : isStr lon = false)
    (h : lat = Val.null ∨ lon = Val.null) :
    coordMask inclusive lat lon = Except.ok false := by
  cases lat with
  | str s => simp [isStr] at h1
  | num a =>
    cases lon with
    | str s => simp [isStr] at h2
    | num b =>
      rcases h with h | h <;> exact absurd h (by simp)
    | null => cases inclusive <;> simp [coordMask, valGe, valLe, valGt, valLt]
  | null =>
    cases lon with
    | str s => simp [isStr] at h2
    | num b => cases inclusive <;> simp [coordMask, valGe, valLe, valGt, valLt]
    | null => cases inclusive <;> simp [coordMask, valGe, valLe, valGt, valLt]

theorem and4_decide (p1 p2 p3 p4 : Prop)
    [Decidable p1] [Decidable p2] [Decidable p3] [Decidable p4] :
    (decide p1 && decide p2 && decide p3 && decide p4)
      = decide (p1 ∧ p2 ∧ p4 ∧ p3) := by
  by_cases h1 : p1 <;> by_cases h2 : p2 <;> by_cases h3 : p3 <;> by_cases h4 : p4 <;>
    simp [h1, h2, h3, h4]

theorem pyEq_num_num (x y : ℚ) :
    pyEq (Val.num x) (Val.num y) = decide (x = y) := rfl

theorem int_tdiv_one (n : Int) : n.tdiv 1 = n := Int.tdiv_one n

theorem rat_trunc_eq_self_iff (a : ℚ) :
    a = ((ratTrunc a : Int) : ℚ) ↔ a.den = 1 := by
  constructor
  · intro h
    rw [h]
    exact Rat.den_intCast _
  · intro h
    have h2 : ((a.num : Int) : ℚ) = a := (Rat.den_eq_one_iff a).mp h
    rw [ratTrunc, h]
    simp only [Nat.cast_one, int_tdiv_one]
    exact h2.symm

theorem pyEq_null_right (x : Val) : pyEq x Val.null = false := by
  cases x <;> rfl

theorem geolocational_filter_num (a b c d : ℚ) :
    geolocational_filter (Val.num a) (Val.num b) (Val.num c) (Val.num d)
      = Except.ok (decide ((c = a ∧ d = b) ∨ a.den = 1 ∨ b.den = 1)) := by
  unfold geolocational_filter
  by_cases h1 : c = a <;> by_cases h2 : d = b <;>
    by_cases h3 : a.den = 1 <;> by_cases h4 : b.den = 1 <;>
    simp [pyEq, pyInt, h1, h2, h3, h4, rat_trunc_eq_self_iff]

theorem gf_error_iff (vlat vlon vglat vglon : Val)
    (h1 : isStr vlat = false) (h2 : isStr vlon = false) :
    geolocational_filter vlat vlon vglat vglon = Except.error ()
      ↔ (vlat = Val.null ∨ ((ratOf vlat).den ≠ 1 ∧ vlon = Val.null)) := by
  cases vlat with
  | str s => simp [isStr] at h1
  | null => simp [geolocational_filter, pyEq_null_right, pyInt]
  | num a =>
    cases vlon with
    | str s => simp [isStr] at h2
    | null =>
      by_cases h3 : a.den = 1 <;>
        simp [geolocational_filter, pyEq_null_right, pyInt, pyEq_num_num,
          rat_trunc_eq_self_iff, h3, ratOf]
    | num b =>
      by_cases hca : pyEq vglat (Val.num a) = true <;>
        by_cases hcb : pyEq vglon (Val.num b) = true <;>
        by_cases h3 : a.den = 1 <;>
        simp [geolocational_filter, pyInt, pyEq_num_num,
          rat_trunc_eq_self_iff, hca, hcb, h3]

/-- A missing GPS latitude, or a missing GPS longitude behind a
non-integer GPS latitude, always drives `geolocational_filter` into an
error, whatever the other cells hold. -/
theorem gf_error_of_missing (vlat vlon vglat vglon : Val)
    (h : vlat = Val.null
      ∨ (vlon = Val.null ∧ ¬(isNum vlat = true ∧ (ratOf vlat).den = 1))) :
    geolocational_filter vlat vlon vglat vglon = Except.error () := by
  rcases h with h | ⟨hlon, hint⟩
  · rw [h]
    simp [geolocational_filter, pyEq_null_right, pyInt]
  · rw [hlon]
    cases vlat with
    | null => simp [geolocational_filter, pyEq_null_right, pyInt]
    | num a =>
      have hden : ¬a.den = 1 := fun hd => hint ⟨rfl, hd⟩
      simp [geolocational_filter, pyEq_null_right, pyInt, pyEq_num_num,
        rat_trunc_eq_self_iff, hden]
    | str t =>
      cases hs : t.toInt? with
      | none => simp [geolocational_filter, pyEq_null_right, pyInt, hs]
      | some n => simp [geolocational_filter, pyEq_null_right, pyInt, hs, pyEq]

/-! ### Claim theorems -/

/-- C1: for every dataset whose grouping columns carry actual (non-missing)
values, an ordered nonempty list of grouping columns and an integer
threshold, `filter_duplicates` keeps exactly the rows whose group (the
set of rows sharing the same grouping-column projection) has fewer than
`group_size` members: every oversized group loses all of its rows
(including the first occurrence) and every smaller group keeps all of
its rows unmodified, in their original order. -/
theorem filter_duplicates_cluster_complete (df : DFrame) (gcols : List String)
    (gs : Int) (inplace : Bool) (hg : gcols ≠ [])
    (hnn : ∀ r ∈ df.rows, ∀ c ∈ gcols, isNull (cell df.cols r c) = false) :
    (filter_duplicates df gcols gs inplace).rows
      = df.rows.filter (fun r =>
          decide ((groupCount df.cols df.rows gcols (rowKey df.cols gcols r) : Int) < gs)) := by
  rw [filter_duplicates_spec]
  dsimp only
  refine List.filter_congr (fun r hr => ?_)
  have hkey : keyOk (rowKey df.cols gcols r) = true := by
    simp only [keyOk, rowKey, List.all_map, List.all_eq_true]
    intro c hc
    simp only [List.mem_map] at hc
    obtain ⟨c0, hc0, hc0e⟩ := hc
    rw [← hc0e]
    simp [Function.comp, hnn r hr c0 hc0]
  have hany : r.any (fun v => !isNull v) = true := by
    cases gcols with
    | nil => exact absurd rfl hg
    | cons c ct =>
      have h0 : isNull (cell df.cols r c) = false := hnn r hr c (by simp)
      have hne : r.getD (df.cols.indexOf c) Val.null ≠ Val.null := by
        intro he
        have h1 : isNull (cell df.cols r c) = true := by
          show isNull (r.getD (df.cols.indexOf c) Val.null) = true
          rw [he]
          rfl
        rw [h0] at h1
        exact absurd h1 (by simp)
      have hmem := getD_mem_of_ne r (df.cols.indexOf c) Val.null hne
      refine List.any_eq_true.mpr ⟨_, hmem, ?_⟩
      have h0a : isNull (r.getD (df.cols.indexOf c) Val.null) = false := h0
      rw [h0a]
      rfl
  simp only [fdPred, suspect, hkey, Bool.true_and, hany, Bool.and_true]
  by_cases hle : gs ≤ (groupCount df.cols df.rows gcols (rowKey df.cols gcols r) : Int)
  · simp [hle, not_lt.mpr hle]
  · simp [hle, not_le.mp hle]

/-- C1 witness: the duplicate-filter scenario of the test-suite, grouping
on latitude, longitude and the first attribute with threshold 2. -/
theorem filter_duplicates_cluster_complete_witness :
    ((["Latitude", "Longitude", "attribute1"] : List String) ≠ [])
      ∧ (∀ r ∈ mhmDF.rows, ∀ c ∈ (["Latitude", "Longitude", "attribute1"] : List String),
          isNull (cell mhmDF.cols r c) = false)
      ∧ (filter_duplicates mhmDF ["Latitude", "Longitude", "attribute1"] 2 false).rows
          = mhmDF.rows.filter (fun r =>
              decide ((groupCount mhmDF.cols mhmDF.rows ["Latitude", "Longitude", "attribute1"]
                (rowKey mhmDF.cols ["Latitude", "Longitude", "attribute1"] r) : Int) < 2)) :=
  ⟨by decide, by decide,
    filter_duplicates_cluster_complete mhmDF ["Latitude", "Longitude", "attribute1"] 2 false
      (by decide) (by decide)⟩

/-- C5 counterexample: grouping on column `a` with threshold 2, both rows
carry the same (missing) value in `a` and the group has cardinality 2,
yet `filter_duplicates` keeps both rows in both modes — pandas `groupby`
silently drops missing keys, contradicting the claim that such a cluster
is removed. -/
theorem filter_duplicates_null_group_kept :
    (∀ r ∈ nullKeyDF.rows, cell nullKeyDF.cols r "a" = Val.null)
      ∧ nullKeyDF.rows.length = 2
      ∧ (filter_duplicates nullKeyDF ["a"] 2 false).rows = nullKeyDF.rows
      ∧ (filter_duplicates nullKeyDF ["a"] 2 true).rows = nullKeyDF.rows :=
  ⟨by decide, by decide, by decide, by decide⟩

/-- C5 amended: a row with a missing value in any grouping column is
excluded from grouping altogether — it never counts toward a cluster and
always survives `filter_duplicates` (in both modes), provided the row
has at least one actual value. -/
theorem filter_duplicates_null_rows_retained (df : DFrame) (gcols : List String)
    (gs : Int) (inplace : Bool) (r : List Val) (hr : r ∈ df.rows)
    (hnull : ∃ c ∈ gcols, isNull (cell df.cols r c) = true)
    (hval : ∃ v ∈ r, isNull v = false) :
    r ∈ (filter_duplicates df gcols gs inplace).rows := by
  rw [filter_duplicates_spec]
  dsimp only
  refine List.mem_filter.mpr ⟨hr, ?_⟩
  obtain ⟨c, hc, hcn⟩ := hnull
  have hkey : keyOk (rowKey df.cols gcols r) = false := by
    simp only [keyOk, rowKey]
    cases hall : (gcols.map (fun c2 => cell df.cols r c2)).all (fun v => !isNull v) with
    | false => rfl
    | true =>
      have h2 := List.all_eq_true.mp hall (cell df.cols r c) (List.mem_map.mpr ⟨c, hc, rfl⟩)
      rw [hcn] at h2
      exact absurd h2 (by simp)
  obtain ⟨v, hv, hvn⟩ := hval
  simp only [fdPred, suspect, hkey, Bool.false_and, Bool.not_false, Bool.true_and]
  exact List.any_eq_true.mpr ⟨v, hv, by simp [hvn]⟩

/-- C5 amended witness: the first row of the missing-key frame survives. -/
theorem filter_duplicates_null_rows_retained_witness :
    ([Val.null, Val.num 1] ∈ nullKeyDF.rows)
      ∧ (∃ c ∈ (["a"] : List String), isNull (cell nullKeyDF.cols [Val.null, Val.num 1] c) = true)
      ∧ (∃ v ∈ [Val.null, Val.num 1], isNull v = false)
      ∧ [Val.null, Val.num 1] ∈ (filter_duplicates nullKeyDF ["a"] 2 false).rows :=
  ⟨by decide, by decide, by decide,
    filter_duplicates_null_rows_retained nullKeyDF ["a"] 2 false [Val.null, Val.num 1]
      (by decide) (by decide) (by decide)⟩

/-- C3: on numeric latitude/longitude columns, `filter_invalid_coords`
(copy mode) retains exactly the rows within the strict bounds
`-90 < lat < 90`, `-180 < lon < 180` when `inclusive` is false, and
within the closed bounds when `inclusive` is true; in particular a
`-9999` latitude is removed in both modes and a latitude of exactly `90`
survives only in inclusive mode (see the witness). -/
theorem filter_invalid_coords_bounds (df : DFrame) (latC lonC : String)
    (inclusive : Bool)
    (hnum : ∀ r ∈ df.rows, isNum (cell df.cols r latC) = true
      ∧ isNum (cell df.cols r lonC) = true) :
    ∃ out : DFrame, filter_invalid_coords df latC lonC inclusive false = Except.ok out ∧
      out.cols = df.cols ∧
      out.rows = df.rows.filter (fun r =>
        if inclusive then
          decide (-90 ≤ ratOf (cell df.cols r latC) ∧ ratOf (cell df.cols r latC) ≤ 90 ∧
            -180 ≤ ratOf (cell df.cols r lonC) ∧ ratOf (cell df.cols r lonC) ≤ 180)
        else
          decide (-90 < ratOf (cell df.cols r latC) ∧ ratOf (cell df.cols r latC) < 90 ∧
            -180 < ratOf (cell df.cols r lonC) ∧ ratOf (cell df.cols r lonC) < 180)) := by
  have hok : ∀ r ∈ df.rows, ∃ b, cmRow df.cols latC lonC inclusive r = Except.ok b := by
    intro r hr
    obtain ⟨ha, hb⟩ := hnum r hr
    obtain ⟨a, hA⟩ := (isNum_iff _).mp ha
    obtain ⟨b, hB⟩ := (isNum_iff _).mp hb
    simp only [cmRow, hA, hB]
    cases inclusive with
    | false => exact ⟨_, coordMask_num_excl a b⟩
    | true => exact ⟨_, coordMask_num_incl a b⟩
  obtain ⟨m, hm⟩ := mapE_ok_of_forall _ _ hok
  refine ⟨_, filter_invalid_coords_ok df latC lonC inclusive false m hm, rfl, ?_⟩
  dsimp only
  refine List.filter_congr (fun r hr => ?_)
  obtain ⟨ha, hb⟩ := hnum r hr
  obtain ⟨a, hA⟩ := (isNum_iff _).mp ha
  obtain ⟨b, hB⟩ := (isNum_iff _).mp hb
  simp only [ficPred, cmRow, hA, hB]
  cases inclusive with
  | false =>
    rw [coordMask_num_excl, okTrue_ok, and4_decide]
    simp [ratOf]
  | true =>
    rw [coordMask_num_incl, okTrue_ok, and4_decide]
    simp [ratOf]

/-- C3 witness: `-9999` is removed in both bound modes, `90` only
survives inclusively. -/
theorem filter_invalid_coords_bounds_witness :
    (∀ r ∈ coordDF.rows, isNum (cell coordDF.cols r "lat") = true
      ∧ isNum (cell coordDF.cols r "lon") = true)
      ∧ (∃ out : DFrame, filter_invalid_coords coordDF "lat" "lon" false false = Except.ok out ∧
          out.cols = coordDF.cols ∧
          out.rows = coordDF.rows.filter (fun r =>
            if false then
              decide (-90 ≤ ratOf (cell coordDF.cols r "lat") ∧ ratOf (cell coordDF.cols r "lat") ≤ 90 ∧
                -180 ≤ ratOf (cell coordDF.cols r "lon") ∧ ratOf (cell coordDF.cols r "lon") ≤ 180)
            else
              decide (-90 < ratOf (cell coordDF.cols r "lat") ∧ ratOf (cell coordDF.cols r "lat") < 90 ∧
                -180 < ratOf (cell coordDF.cols r "lon") ∧ ratOf (cell coordDF.cols r "lon") < 180)))
      ∧ (∃ out : DFrame, filter_invalid_coords coordDF "lat" "lon" true false = Except.ok out ∧
          out.cols = coordDF.cols ∧
          out.rows = coordDF.rows.filter (fun r =>
            if true then
              decide (-90 ≤ ratOf (cell coordDF.cols r "lat") ∧ ratOf (cell coordDF.cols r "lat") ≤ 90 ∧
                -180 ≤ ratOf (cell coordDF.cols r "lon") ∧ ratOf (cell coordDF.cols r "lon") ≤ 180)
            else
              decide (-90 < ratOf (cell coordDF.cols r "lat") ∧ ratOf (cell coordDF.cols r "lat") < 90 ∧
                -180 < ratOf (cell coordDF.cols r "lon") ∧ ratOf (cell coordDF.cols r "lon") < 180))) :=
  ⟨by decide,
    filter_invalid_coords_bounds coordDF "lat" "lon" false (by decide),
    filter_invalid_coords_bounds coordDF "lat" "lon" true (by decide)⟩

/-- C7: `filter_invalid_coords` (copy mode) is idempotent — applied to
its own successful output with the same parameters it returns that
output unchanged. -/
theorem filter_invalid_coords_idempotent (df : DFrame) (latC lonC : String)
    (inclusive : Bool) (out : DFrame)
    (h : filter_invalid_coords df latC lonC inclusive false = Except.ok out) :
    filter_invalid_coords out latC lonC inclusive false = Except.ok out := by
  have hspec := filter_invalid_coords_spec df latC lonC inclusive false out h
  have hcols : out.cols = df.cols := by rw [hspec]
  have hrows : out.rows = df.rows.filter (ficPred df.cols latC lonC inclusive false) := by
    rw [hspec]
  have hall : ∀ r ∈ out.rows, cmRow out.cols latC lonC inclusive r = Except.ok true := by
    intro r hr
    rw [hrows] at hr
    have hp : ficPred df.cols latC lonC inclusive false r = true := (List.mem_filter.mp hr).2
    rw [hcols]
    exact (okTrue_iff _).mp hp
  obtain ⟨m, hm⟩ := mapE_ok_of_forall _ _ (fun r hr => ⟨true, hall r hr⟩)
  rw [filter_invalid_coords_ok out latC lonC inclusive false m hm]
  have hself : out.rows.filter (ficPred out.cols latC lonC inclusive false) = out.rows :=
    List.filter_eq_self.mpr (fun r hr => (okTrue_iff _).mpr (hall r hr))
  rw [hself]

/-- C7 witness: a concrete first application and its fixed point. -/
theorem filter_invalid_coords_idempotent_witness :
    (filter_invalid_coords coordDF "lat" "lon" false false
        = Except.ok ⟨["lat", "lon"], [[Val.num 50, Val.num 20]]⟩)
      ∧ filter_invalid_coords ⟨["lat", "lon"], [[Val.num 50, Val.num 20]]⟩ "lat" "lon" false false
          = Except.ok ⟨["lat", "lon"], [[Val.num 50, Val.num 20]]⟩ :=
  ⟨by decide,
    filter_invalid_coords_idempotent coordDF "lat" "lon" false
      ⟨["lat", "lon"], [[Val.num 50, Val.num 20]]⟩ (by decide)⟩

/-- C2: on numeric GPS and grid coordinate columns, the copy-mode
`filter_poor_geolocational_data` retains exactly the rows for which the
grid pair does not equal the GPS pair, the GPS latitude is not a whole
number and the GPS longitude is not a whole number (a rational is a
whole number exactly when its reduced denominator is 1); equivalently a
row is removed iff the pair matches or a GPS coordinate is an integer.
The dataset must be nonempty: `np.vectorize` raises on size-0 input. -/
theorem filter_poor_geolocational_iff (df : DFrame) (latC lonC glatC glonC : String)
    (hne : df.rows ≠ [])
    (hnum : ∀ r ∈ df.rows,
      isNum (cell df.cols r latC) = true ∧ isNum (cell df.cols r lonC) = true ∧
      isNum (cell df.cols r glatC) = true ∧ isNum (cell df.cols r glonC) = true) :
    ∃ out : DFrame,
      filter_poor_geolocational_data df latC lonC glatC glonC false = Except.ok out ∧
      out.cols = df.cols ∧
      out.rows = df.rows.filter (fun r =>
        decide (¬((ratOf (cell df.cols r glatC) = ratOf (cell df.cols r latC) ∧
            ratOf (cell df.cols r glonC) = ratOf (cell df.cols r lonC)) ∨
          (ratOf (cell df.cols r latC)).den = 1 ∨
          (ratOf (cell df.cols r lonC)).den = 1))) := by
  have hok : ∀ r ∈ df.rows, ∃ x, gfRow df.cols latC lonC glatC glonC r = Except.ok x := by
    intro r hr
    obtain ⟨h1, h2, h3, h4⟩ := hnum r hr
    obtain ⟨a, hA⟩ := (isNum_iff _).mp h1
    obtain ⟨b, hB⟩ := (isNum_iff _).mp h2
    obtain ⟨c, hC⟩ := (isNum_iff _).mp h3
    obtain ⟨d, hD⟩ := (isNum_iff _).mp h4
    refine ⟨decide ((c = a ∧ d = b) ∨ a.den = 1 ∨ b.den = 1), ?_⟩
    simp only [gfRow, hA, hB, hC, hD]
    exact geolocational_filter_num a b c d
  obtain ⟨m, hm⟩ := mapE_ok_of_forall _ _ hok
  refine ⟨_, filter_poor_ok df latC lonC glatC glonC false m hne hm, rfl, ?_⟩
  dsimp only
  refine List.filter_congr (fun r hr => ?_)
  obtain ⟨h1, h2, h3, h4⟩ := hnum r hr
  obtain ⟨a, hA⟩ := (isNum_iff _).mp h1
  obtain ⟨b, hB⟩ := (isNum_iff _).mp h2
  obtain ⟨c, hC⟩ := (isNum_iff _).mp h3
  obtain ⟨d, hD⟩ := (isNum_iff _).mp h4
  simp only [fpPred, gfRow, hA, hB, hC, hD, geolocational_filter_num, okTrue_ok, ratOf]
  rw [← decide_not]

/-- C2 witness: the specification scenario — a grid-matching row and an
integer-latitude row are removed, the clean row survives. -/
theorem filter_poor_geolocational_iff_witness :
    (geoDF.rows ≠ [])
      ∧ (∀ r ∈ geoDF.rows,
      isNum (cell geoDF.cols r "Latitude") = true ∧ isNum (cell geoDF.cols r "Longitude") = true ∧
      isNum (cell geoDF.cols r "MGRSLatitude") = true ∧ isNum (cell geoDF.cols r "MGRSLongitude") = true)
      ∧ ∃ out : DFrame,
        filter_poor_geolocational_data geoDF "Latitude" "Longitude" "MGRSLatitude" "MGRSLongitude" false
          = Except.ok out ∧
        out.cols = geoDF.cols ∧
        out.rows = geoDF.rows.filter (fun r =>
          decide (¬((ratOf (cell geoDF.cols r "MGRSLatitude") = ratOf (cell geoDF.cols r "Latitude") ∧
              ratOf (cell geoDF.cols r "MGRSLongitude") = ratOf (cell geoDF.cols r "Longitude")) ∨
            (ratOf (cell geoDF.cols r "Latitude")).den = 1 ∨
            (ratOf (cell geoDF.cols r "Longitude")).den = 1))) :=
  ⟨by decide, by decide,
    filter_poor_geolocational_iff geoDF "Latitude" "Longitude" "MGRSLatitude" "MGRSLongitude"
      (by decide) (by decide)⟩

/-- C4 (code bug): the two modes of `filter_invalid_coords` disagree.
On a row with valid coordinates but a missing value in a third column,
copy mode keeps the row while in-place mode drops it: source line 67
calls `df.dropna(inplace=True)` with the pandas default `how="any"`
(its siblings use `how="all"`), so a surviving row containing any
missing cell — which is not "fully empty after masking" — is deleted. -/
theorem filter_invalid_coords_mode_divergence :
    filter_invalid_coords maskedDF "lat" "lon" false false
        = Except.ok ⟨["lat", "lon", "x"], [[Val.num 10, Val.num 20, Val.null]]⟩
      ∧ filter_invalid_coords maskedDF "lat" "lon" false true
        = Except.ok ⟨["lat", "lon", "x"], []⟩ :=
  ⟨by decide, by decide⟩

/-- C6 counterexample: a non-numeric (string) latitude raises a
`TypeError` (modelled as `Except.error ()`) instead of evaluating the
comparison to false and excluding the row. -/
theorem filter_invalid_coords_str_raises :
    isNum (cell strLatDF.cols (strLatDF.rows.getD 0 []) "lat") = false
      ∧ filter_invalid_coords strLatDF "lat" "lon" false false = Except.error () :=
  ⟨by decide, by decide⟩

/-- C6 amended: `filter_invalid_coords` raises no error only when the
target columns are free of string values; a missing (`NaN`) coordinate
compares false, so every row with a missing value in a target column is
excluded from the result (in both modes, for well-formed rows). -/
theorem filter_invalid_coords_null_excluded (df : DFrame) (latC lonC : String)
    (inclusive inplace : Bool)
    (hns : ∀ r ∈ df.rows, isStr (cell df.cols r latC) = false
      ∧ isStr (cell df.cols r lonC) = false)
    (hwf : ∀ r ∈ df.rows, r ≠ []) :
    ∃ out : DFrame, filter_invalid_coords df latC lonC inclusive inplace = Except.ok out ∧
      ∀ r ∈ df.rows, (cell df.cols r latC = Val.null ∨ cell df.cols r lonC = Val.null) →
        r ∉ out.rows := by
  have hok : ∀ r ∈ df.rows, ∃ x, cmRow df.cols latC lonC inclusive r = Except.ok x := by
    intro r hr
    obtain ⟨h1, h2⟩ := hns r hr
    exact coordMask_ok_of_nonstr inclusive _ _ h1 h2
  obtain ⟨m, hm⟩ := mapE_ok_of_forall _ _ hok
  refine ⟨_, filter_invalid_coords_ok df latC lonC inclusive inplace m hm, ?_⟩
  intro r hr hnull hmem
  dsimp only at hmem
  have hp := (List.mem_filter.mp hmem).2
  obtain ⟨h1, h2⟩ := hns r hr
  have hcm : cmRow df.cols latC lonC inclusive r = Except.ok false := by
    simp only [cmRow]
    exact coordMask_null_false inclusive _ _ h1 h2 hnull
  cases inplace with
  | false =>
    simp only [ficPred, hcm, okTrue_ok] at hp
    exact absurd hp (by simp)
  | true =>
    simp only [ficPred, hcm, okTrue_ok] at hp
    simp only [Bool.false_eq_true, if_false, List.isEmpty_iff] at hp
    exact absurd hp (hwf r hr)

/-- C6 amended witness: the missing-latitude row is excluded without an
error while the valid row survives. -/
theorem filter_invalid_coords_null_excluded_witness :
    (∀ r ∈ nullLatDF.rows, isStr (cell nullLatDF.cols r "lat") = false
      ∧ isStr (cell nullLatDF.cols r "lon") = false)
      ∧ (∀ r ∈ nullLatDF.rows, r ≠ [])
      ∧ ∃ out : DFrame, filter_invalid_coords nullLatDF "lat" "lon" false false = Except.ok out ∧
          ∀ r ∈ nullLatDF.rows,
            (cell nullLatDF.cols r "lat" = Val.null ∨ cell nullLatDF.cols r "lon" = Val.null) →
            r ∉ out.rows :=
  ⟨by decide, by decide,
    filter_invalid_coords_null_excluded nullLatDF "lat" "lon" false false (by decide) (by decide)⟩

/-- C8: every filter emits its surviving rows as a subsequence of the
input rows — original relative order, no reordering, in either mode. -/
theorem filters_preserve_order (df : DFrame) (latC lonC glatC glonC : String)
    (gcols : List String) (gs : Int) (inclusive inp1 inp2 inp3 : Bool)
    (out1 out3 : DFrame)
    (h1 : filter_invalid_coords df latC lonC inclusive inp1 = Except.ok out1)
    (h3 : filter_poor_geolocational_data df latC lonC glatC glonC inp3 = Except.ok out3) :
    out1.rows.Sublist df.rows
      ∧ (filter_duplicates df gcols gs inp2).rows.Sublist df.rows
      ∧ out3.rows.Sublist df.rows := by
  refine ⟨?_, ?_, ?_⟩
  · rw [filter_invalid_coords_spec df latC lonC inclusive inp1 out1 h1]
    exact List.filter_sublist _
  · rw [filter_duplicates_spec]
    exact List.filter_sublist _
  · rw [filter_poor_spec df latC lonC glatC glonC inp3 out3 h3]
    exact List.filter_sublist _

/-- C8 witness at the coordinate frame (with itself as grid columns). -/
theorem filters_preserve_order_witness :
    (filter_invalid_coords coordDF "lat" "lon" false false
        = Except.ok ⟨["lat", "lon"], [[Val.num 50, Val.num 20]]⟩)
      ∧ (filter_poor_geolocational_data coordDF "lat" "lon" "lat" "lon" false
        = Except.ok ⟨["lat", "lon"], []⟩)
      ∧ ((⟨["lat", "lon"], [[Val.num 50, Val.num 20]]⟩ : DFrame).rows.Sublist coordDF.rows
          ∧ (filter_duplicates coordDF ["lat"] 2 false).rows.Sublist coordDF.rows
          ∧ (⟨["lat", "lon"], []⟩ : DFrame).rows.Sublist coordDF.rows) :=
  ⟨by decide, by decide,
    filters_preserve_order coordDF "lat" "lon" "lat" "lon" ["lat"] 2 false false false false
      ⟨["lat", "lon"], [[Val.num 50, Val.num 20]]⟩ ⟨["lat", "lon"], []⟩
      (by decide) (by decide)⟩

/-- C9: no filter edits a surviving row — every row of every result, in
either mode, is literally one of the input rows, cell for cell. -/
theorem filters_never_edit_rows (df : DFrame) (latC lonC glatC glonC : String)
    (gcols : List String) (gs : Int) (inclusive inp1 inp2 inp3 : Bool)
    (out1 out3 : DFrame)
    (h1 : filter_invalid_coords df latC lonC inclusive inp1 = Except.ok out1)
    (h3 : filter_poor_geolocational_data df latC lonC glatC glonC inp3 = Except.ok out3) :
    (∀ r ∈ out1.rows, r ∈ df.rows)
      ∧ (∀ r ∈ (filter_duplicates df gcols gs inp2).rows, r ∈ df.rows)
      ∧ (∀ r ∈ out3.rows, r ∈ df.rows) := by
  refine ⟨?_, ?_, ?_⟩
  · intro r hr
    rw [filter_invalid_coords_spec df latC lonC inclusive inp1 out1 h1] at hr
    exact List.mem_of_mem_filter hr
  · intro r hr
    rw [filter_duplicates_spec] at hr
    exact List.mem_of_mem_filter hr
  · intro r hr
    rw [filter_poor_spec df latC lonC glatC glonC inp3 out3 h3] at hr
    exact List.mem_of_mem_filter hr

/-- C9 witness at the in-place mode of each filter. -/
theorem filters_never_edit_rows_witness :
    (filter_invalid_coords coordDF "lat" "lon" false true
        = Except.ok ⟨["lat", "lon"], [[Val.num 50, Val.num 20]]⟩)
      ∧ (filter_poor_geolocational_data coordDF "lat" "lon" "lat" "lon" true
        = Except.ok ⟨["lat", "lon"], []⟩)
      ∧ ((∀ r ∈ (⟨["lat", "lon"], [[Val.num 50, Val.num 20]]⟩ : DFrame).rows, r ∈ coordDF.rows)
          ∧ (∀ r ∈ (filter_duplicates coordDF ["lat"] 2 true).rows, r ∈ coordDF.rows)
          ∧ (∀ r ∈ (⟨["lat", "lon"], []⟩ : DFrame).rows, r ∈ coordDF.rows)) :=
  ⟨by decide, by decide,
    filters_never_edit_rows coordDF "lat" "lon" "lat" "lon" ["lat"] 2 false true true true
      ⟨["lat", "lon"], [[Val.num 50, Val.num 20]]⟩ ⟨["lat", "lon"], []⟩
      (by decide) (by decide)⟩

/-- C10 counterexample: a row whose GPS latitude is the exact integer 30
and whose GPS longitude is missing does not raise — Python's `or`
short-circuits after `gps_lat == int(gps_lat)` succeeds, so
`int(gps_lon)` is never evaluated and the filter returns a result with
the row removed. -/
theorem filter_poor_missing_lon_no_error :
    cell intLatNullLonDF.cols (intLatNullLonDF.rows.getD 0 []) "lon" = Val.null
      ∧ filter_poor_geolocational_data intLatNullLonDF "lat" "lon" "mlat" "mlon" false
          = Except.ok ⟨["lat", "lon", "mlat", "mlon"], []⟩ :=
  ⟨by decide, by decide⟩

/-- C10 amended: `filter_poor_geolocational_data` raises an error and
returns no filtered dataset for every dataset containing at least one
row whose GPS latitude is missing, or whose GPS longitude is missing
while its GPS latitude is not an exact-integer number.  The only
missing-GPS rows that escape are those with an integer GPS latitude and
a missing longitude, where Python's `or` short-circuits before
`int(gps_lon)` is evaluated (the counterexample) and the row is removed
instead of raising. -/
theorem filter_poor_missing_gps_raises (df : DFrame) (latC lonC glatC glonC : String)
    (inplace : Bool)
    (h : ∃ r ∈ df.rows, cell df.cols r latC = Val.null
      ∨ (cell df.cols r lonC = Val.null
          ∧ ¬(isNum (cell df.cols r latC) = true
              ∧ (ratOf (cell df.cols r latC)).den = 1))) :
    filter_poor_geolocational_data df latC lonC glatC glonC inplace = Except.error () := by
  rw [filter_poor_error_iff]
  refine Or.inr ?_
  rw [mapE_error_iff]
  obtain ⟨r, hr, hcond⟩ := h
  exact ⟨r, hr, gf_error_of_missing _ _ _ _ hcond⟩

/-- C10 amended witness: a missing GPS latitude does raise, in both
the default and the in-place mode. -/
theorem filter_poor_missing_gps_raises_witness :
    (∃ r ∈ nullGpsLatDF.rows, cell nullGpsLatDF.cols r "lat" = Val.null
      ∨ (cell nullGpsLatDF.cols r "lon" = Val.null
          ∧ ¬(isNum (cell nullGpsLatDF.cols r "lat") = true
              ∧ (ratOf (cell nullGpsLatDF.cols r "lat")).den = 1)))
      ∧ filter_poor_geolocational_data nullGpsLatDF "lat" "lon" "mlat" "mlon" false
          = Except.error () :=
  ⟨by decide,
    filter_poor_missing_gps_raises nullGpsLatDF "lat" "lon" "mlat" "mlon" false (by decide)⟩
